import Mathlib

/-!
Shallow embedding of the tecsohub/cms_backend authentication and RBAC core,
translated from the Python source under `app/`:

- `app/core/security.py` — password hashing, token hashing, JWT issue/verify,
  per-request session validation (`get_current_user_token`);
- `app/services/session_service.py` — session registry CRUD;
- `app/services/auth_service.py` — login, refresh rotation, invitation accept;
- `app/services/user_service.py` — `disable_user`;
- `app/rbac/dependencies.py` — permission aggregation and `require_permission`;
- `app/rbac/context_resolver.py` — `resolve_data_scope`.

Modelling conventions:
- UUIDs, emails, device ids and permission codes are `String`s; timestamps are
  `Int` seconds (the Python code compares `datetime`s via `total_seconds()`).
- The relational store is an explicit `DB` record of lists of rows; ORM object
  mutation followed by `flush()` becomes a primary-key-keyed functional update.
  Service functions return `Except Err α × DB`: the second component is the
  state of the unit-of-work session at the point of return or raise.
- SQLAlchemy `scalar_one_or_none` on a unique-keyed lookup is `List.find?`
  (equivalent under the table's uniqueness constraint).
- bcrypt and SHA-256 are modelled as formal injective digests: the model tags
  the input and never inverts it.  A JWT is modelled as its payload together
  with the signing key and algorithm; `jwt.decode` succeeds exactly when key
  and algorithm match and the `exp` claim has not passed.
- `settings.SESSION_INACTIVITY_TIMEOUT_MINUTES` and
  `settings.REFRESH_TOKEN_EXPIRE_DAYS` are read by the services but are not
  declared in `app/core/config.py`; spec §1 places config loading with the
  external collaborators, so both are threaded through as parameters
  (`timeoutMin`, `refreshTtl`).
-/

namespace CmsBackend

/-- Status enum of `app/models/user.py` (`UserStatus`). -/
inductive UserStatus where
  | INVITED
  | ACTIVE
  | DISABLED
  deriving DecidableEq, Repr

/-- Status enum of `app/models/invitation.py` (`InvitationStatus`). -/
inductive InvitationStatus where
  | PENDING
  | ACCEPTED
  | EXPIRED
  deriving DecidableEq, Repr

/-- A JSON-ish claim value as used in the JWT payload dicts built by
`auth_service.py`: strings (ids, device ids), integers (the `exp` timestamp),
and lists of strings (`role_ids`, `role_names`). -/
inductive Claim where
  | s (v : String)
  | n (v : Int)
  | l (v : List String)
  deriving DecidableEq, Repr

/-- A JWT payload: the claim dict, first-match lookup semantics. -/
abbrev Payload := List (String × Claim)

/-- A signed JWT, modelled as its payload plus signing key and algorithm
(`jwt.encode` in python-jose).  Two tokens are equal exactly when payload,
key and algorithm coincide. -/
structure Token where
  payload : Payload
  key : String
  alg : String
  deriving DecidableEq, Repr

/-- The result of `security.hash_token` (SHA-256 hex digest), modelled as a
formal injective digest of the token: the model only ever compares digests
for equality and never inverts one. -/
structure TokenHash where
  digest : Token
  deriving DecidableEq, Repr

/-- Default `SECRET_KEY` from `app/core/config.py`. -/
def SECRET_KEY : String := "CHANGE-ME-in-production-use-a-real-secret"

/-- Models `JWT_ALGORITHM` from `app/core/config.py`. -/
def JWT_ALGORITHM : String := "HS256"

/-- Models `ACCESS_TOKEN_EXPIRE_MINUTES` from `app/core/config.py`. -/
def ACCESS_TOKEN_EXPIRE_MINUTES : Int := 60

/-- Models `security.hash_password`: bcrypt, modelled as a deterministic injective
digest (salting only affects the digest representation, not `checkpw`). -/
def hash_password (plain : String) : String := "bcrypt$" ++ plain

/-- Models `security.verify_password`: `bcrypt.checkpw`, which accepts exactly the
preimage of the stored digest. -/
def verify_password (plain hashed : String) : Bool :=
  hashed == "bcrypt$" ++ plain

/-- Models `security.hash_token`: SHA-256 of the token string. -/
def hash_token (t : Token) : TokenHash := ⟨t⟩

/-- First-match lookup in a claim dict (`payload.get(k)`). -/
def getClaim (p : Payload) (k : String) : Option Claim :=
  match p.find? (fun kv => kv.1 == k) with
  | some kv => some kv.2
  | none => none

/-- Models `payload.get(k)` read as a string claim. -/
def getStr (p : Payload) (k : String) : Option String :=
  match getClaim p k with
  | some (Claim.s v) => some v
  | _ => none

/-- Python truthiness on an optional string: `None` and `""` are falsy. -/
def pyTruthy (o : Option String) : Option String :=
  match o with
  | some v => if v == "" then none else some v
  | none => none

/-- Python `a or b` on optional strings: yields `b` whenever `a` is falsy. -/
def pyOr (a b : Option String) : Option String :=
  match pyTruthy a with
  | some v => some v
  | none => b

/-- Models `dict.update({k: v})`: set the key `k` to `v`, replacing any previous
binding (represented by filtering out old bindings and appending). -/
def setClaim (p : Payload) (k : String) (v : Claim) : Payload :=
  p.filter (fun kv => kv.1 != k) ++ [(k, v)]

/-- python-jose `exp` validation: rejects exactly when an integer `exp`
claim lies strictly in the past. -/
def expOk (p : Payload) (now : Int) : Bool :=
  match getClaim p "exp" with
  | some (Claim.n e) => decide (now ≤ e)
  | _ => true

/-- Models `jwt.decode(token, key, algorithms=[alg])`: signature check (key and
algorithm match) plus `exp` validation; returns the payload on success. -/
def jwtDecode (t : Token) (key alg : String) (now : Int) : Option Payload :=
  if t.key == key && t.alg == alg && expOk t.payload now then some t.payload else none

/-- The ttl chosen by `security.create_access_token`: `expires_delta or
timedelta(minutes=settings.ACCESS_TOKEN_EXPIRE_MINUTES)`, in seconds. -/
def access_ttl (expires_delta : Option Int) : Int :=
  match expires_delta with
  | some d => d
  | none => ACCESS_TOKEN_EXPIRE_MINUTES * 60

/-- Models `security.create_access_token`: copies the claim dict, sets `exp` to
now plus the ttl (`expires_delta` or the configured default), and signs with
the configured secret and algorithm.  `expires_delta` is in seconds. -/
def create_access_token (data : Payload) (now : Int) (expires_delta : Option Int) : Token :=
  Token.mk (setClaim data "exp" (Claim.n (now + access_ttl expires_delta)))
    SECRET_KEY JWT_ALGORITHM

/-- Models `security.create_refresh_token`: adds `exp` (a longer ttl, threaded in as
`refreshTtl` seconds) and the discriminator `type = "refresh"`. -/
def create_refresh_token (data : Payload) (now refreshTtl : Int) : Token :=
  Token.mk (setClaim (setClaim data "exp" (Claim.n (now + refreshTtl))) "type" (Claim.s "refresh"))
    SECRET_KEY JWT_ALGORITHM

/-- Error taxonomy: the `HTTPException` status codes raised by the services,
with their `detail` strings. -/
inductive Err where
  | unauthorized (detail : String)
  | forbidden (detail : String)
  | conflict (detail : String)
  | badRequest (detail : String)
  | notFound (detail : String)
  | internal (detail : String)
  deriving DecidableEq, Repr

/-- Decidable equality for `Except` results, so concrete runs of the model
can be checked by evaluation. -/
instance {ε α : Type} [DecidableEq ε] [DecidableEq α] : DecidableEq (Except ε α) := fun a b =>
  match a, b with
  | Except.ok x, Except.ok y =>
    if h : x = y then isTrue (congrArg Except.ok h)
    else isFalse (fun hh => h (Except.ok.inj hh))
  | Except.ok _, Except.error _ => isFalse (fun hh => Except.noConfusion hh)
  | Except.error _, Except.ok _ => isFalse (fun hh => Except.noConfusion hh)
  | Except.error e, Except.error f =>
    if h : e = f then isTrue (congrArg Except.error h)
    else isFalse (fun hh => h (Except.error.inj hh))

/-- Models `security.decode_access_token`: decode and validate, 401 on failure. -/
def decode_access_token (t : Token) (now : Int) : Except Err Payload :=
  match jwtDecode t SECRET_KEY JWT_ALGORITHM now with
  | some p => Except.ok p
  | none => Except.error (Err.unauthorized "Invalid or expired token")

/-- Row of `roles` (`app/models/role.py`), with its permission codes reached
through the `role_permissions` association. -/
structure Role where
  id : String
  name : String
  permissions : List String
  deriving DecidableEq, Repr

/-- Row of `users` (`app/models/user.py`); `role_ids` is the `user_roles`
association.  Columns not read by the verified flows (phone, address,
timestamps) are omitted. -/
structure User where
  id : String
  email : String
  password_hash : Option String
  full_name : String
  status : UserStatus
  role_ids : List String
  deriving DecidableEq, Repr

/-- Row of `user_sessions` (`app/models/session.py`). -/
structure UserSession where
  id : String
  user_id : String
  device_id : String
  role : String
  refresh_token_hash : TokenHash
  created_at : Int
  last_seen_at : Int
  is_active : Bool
  deriving DecidableEq, Repr

/-- Row of `invitations` (`app/models/invitation.py`). -/
structure Invitation where
  id : String
  email : String
  invited_by : Option String
  role_assigned : String
  token : String
  expires_at : Int
  status : InvitationStatus
  deriving DecidableEq, Repr

/-- Row of `operator_profiles` (`app/models/operator_profile.py`);
`user_id` is the primary key. -/
structure OperatorProfile where
  user_id : String
  warehouse_id : String
  shift_start : Option Int
  shift_end : Option Int
  deriving DecidableEq, Repr

/-- Row of `clients` (`app/models/client.py`); billing columns not read by
the verified flows are omitted. -/
structure Client where
  id : String
  user_id : String
  deriving DecidableEq, Repr

/-- The relational store: one list of rows per table. -/
structure DB where
  users : List User
  roles : List Role
  sessions : List UserSession
  invitations : List Invitation
  operator_profiles : List OperatorProfile
  clients : List Client
  deriving DecidableEq, Repr

/-- Models `user.roles`: resolve the `user_roles` association against the role
catalog, in the association's order. -/
def userRoles (db : DB) (u : User) : List Role :=
  u.role_ids.filterMap (fun rid => db.roles.find? (fun r => r.id == rid))

/-- Models `user.operator_profile`: the one-to-one row keyed by `user_id`. -/
def operatorProfileOf (db : DB) (u : User) : Option OperatorProfile :=
  db.operator_profiles.find? (fun p => p.user_id == u.id)

/-- Models `user.client`: the one-to-one row keyed by `user_id`. -/
def clientOf (db : DB) (u : User) : Option Client :=
  db.clients.find? (fun c => c.user_id == u.id)

/-- Models `session_service.get_active_sessions`: all sessions of the user currently
flagged active (a pure select; no garbage collection here). -/
def get_active_sessions (user_id : String) (db : DB) : List UserSession :=
  db.sessions.filter (fun s => s.user_id == user_id && s.is_active)

/-- Models `session_service.get_active_session_by_id`: single active session by
primary key. -/
def get_active_session_by_id (session_id : String) (db : DB) : Option UserSession :=
  db.sessions.find? (fun s => s.id == session_id && s.is_active)

/-- Models `session_service.deactivate_session`: `UPDATE user_sessions SET
is_active = false WHERE id = session_id`. -/
def deactivate_session (session_id : String) (db : DB) : DB :=
  { db with sessions := db.sessions.map (fun s =>
      if s.id == session_id then { s with is_active := false } else s) }

/-- Models `session_service.deactivate_all_user_sessions`: flip `is_active` on every
active session of the user; returns the rowcount (matched rows) with the
updated store. -/
def deactivate_all_user_sessions (user_id : String) (db : DB) : Nat × DB :=
  ((db.sessions.filter (fun s => s.user_id == user_id && s.is_active)).length,
   { db with sessions := db.sessions.map (fun s =>
       if s.user_id == user_id && s.is_active then { s with is_active := false } else s) })

/-- Models `security.get_current_user_token` (minus FastAPI plumbing): decode the
JWT, require the session-binding claims, look the session up in the registry,
check device binding and the inactivity window, and bump `last_seen_at`. -/
def get_current_user_token (t : Token) (now timeoutMin : Int) (db : DB) :
    Except Err Payload × DB :=
  match jwtDecode t SECRET_KEY JWT_ALGORITHM now with
  | none => (Except.error (Err.unauthorized "Invalid or expired token"), db)
  | some payload =>
    match pyTruthy (getStr payload "session_id"),
          pyTruthy (pyOr (getStr payload "sub") (getStr payload "user_id")),
          pyTruthy (getStr payload "device_id") with
    | some sid, some uid, some did =>
      match db.sessions.find? (fun s => s.id == sid && s.user_id == uid && s.is_active) with
      | none => (Except.error (Err.unauthorized "Session expired or revoked"), db)
      | some session =>
        if session.device_id != did then
          (Except.error (Err.unauthorized "Device mismatch — session invalid"), db)
        else if now - session.last_seen_at > timeoutMin * 60 then
          (Except.error (Err.unauthorized "Session timed out due to inactivity"), db)
        else
          (Except.ok payload,
           { db with sessions := db.sessions.map (fun s2 =>
               if s2.id == session.id then { s2 with last_seen_at := now } else s2) })
    | _, _, _ =>
      (Except.error (Err.unauthorized "Invalid token payload — missing session fields"), db)

/-- Models `auth_service._build_access_payload`: the JWT claim dict, with the
backward-compat `user_id` key and the contextual warehouse/client ids. -/
def build_access_payload (db : DB) (user : User) (session_id device_id : String) : Payload :=
  [("sub", Claim.s user.id),
   ("user_id", Claim.s user.id),
   ("role_ids", Claim.l ((userRoles db user).map (fun r => r.id))),
   ("role_names", Claim.l ((userRoles db user).map (fun r => r.name))),
   ("device_id", Claim.s device_id),
   ("session_id", Claim.s session_id)]
  ++ (match operatorProfileOf db user with
      | some p => [("warehouse_id", Claim.s p.warehouse_id)]
      | none => [])
  ++ (match clientOf db user with
      | some c => [("client_id", Claim.s c.id)]
      | none => [])

/-- The active-session read with lazy garbage collection performed at the
start of `auth_service.authenticate_user` (lines 125–133): fetch the sessions
flagged active, flip `is_active` off on those idle beyond the window, and
keep the rest as `truly_active`. -/
def fetch_and_gc_active_sessions (user_id : String) (now timeoutSec : Int) (db : DB) :
    List UserSession × DB :=
  let active := get_active_sessions user_id db
  (active.filter (fun s => !(decide (now - s.last_seen_at > timeoutSec))),
   { db with sessions := db.sessions.map (fun s =>
       if s.user_id == user_id && s.is_active && decide (now - s.last_seen_at > timeoutSec)
       then { s with is_active := false } else s) })

/-- The token pair returned by login and refresh. -/
structure TokenResponse where
  access_token : Token
  refresh_token : Token
  token_type : String
  user_id : String
  roles : List String
  deriving DecidableEq, Repr

/-- Models `auth_service.authenticate_user`: credential check, lazy session GC,
device-concurrency enforcement, session create-or-reuse, token issuance.
`newSid` stands for the `uuid.uuid4()` drawn for a fresh session. -/
def authenticate_user (email password device_id : String)
    (now timeoutMin refreshTtl : Int) (newSid : String) (db : DB) :
    Except Err TokenResponse × DB :=
  match db.users.find? (fun u => u.email == email) with
  | none => (Except.error (Err.unauthorized "Invalid email or password"), db)
  | some user =>
    if !(verify_password password (user.password_hash.getD "")) then
      (Except.error (Err.unauthorized "Invalid email or password"), db)
    else if user.status == UserStatus.DISABLED then
      (Except.error (Err.forbidden "Account is disabled"), db)
    else
      let role_names := (userRoles db user).map (fun r => r.name)
      let timeout_seconds := timeoutMin * 60
      let gc := fetch_and_gc_active_sessions user.id now timeout_seconds db
      let truly_active := gc.1
      let db1 := gc.2
      if truly_active.any (fun s => s.device_id != device_id) then
        (Except.error (Err.conflict
          "Active session exists on another device. Only one device is allowed per user."), db1)
      else
        let existing := truly_active.find? (fun s => s.device_id == device_id)
        let session_id := match existing with
          | some s => s.id
          | none => newSid
        let access_token := create_access_token (build_access_payload db user session_id device_id) now none
        let refresh_token := create_refresh_token
          [("sub", Claim.s user.id), ("session_id", Claim.s session_id),
           ("device_id", Claim.s device_id)] now refreshTtl
        let refresh_hash := hash_token refresh_token
        let db2 := match existing with
          | some s =>
            { db1 with sessions := db1.sessions.map (fun t2 =>
                if t2.id == s.id then
                  { t2 with refresh_token_hash := refresh_hash, last_seen_at := now }
                else t2) }
          | none =>
            { db1 with sessions := db1.sessions ++
                [{ id := newSid, user_id := user.id, device_id := device_id,
                   role := role_names.headD "UNKNOWN", refresh_token_hash := refresh_hash,
                   created_at := now, last_seen_at := now, is_active := true }] }
        (Except.ok { access_token := access_token, refresh_token := refresh_token,
                     token_type := "bearer", user_id := user.id, roles := role_names }, db2)

/-- Models `auth_service._load_user_full`: user by primary key (eager loads are
resolved on demand in the model). -/
def load_user_full (user_id : String) (db : DB) : Option User :=
  db.users.find? (fun u => u.id == user_id)

/-- Models `auth_service.refresh_access_token`: decode and type-check the refresh
token, find the active session, compare the submitted token's hash against
the stored hash before rotating, reject disabled accounts (deactivating the
session), then rotate the stored hash and bump `last_seen_at`. -/
def refresh_access_token (raw : Token) (now refreshTtl : Int) (db : DB) :
    Except Err TokenResponse × DB :=
  match jwtDecode raw SECRET_KEY JWT_ALGORITHM now with
  | none => (Except.error (Err.unauthorized "Invalid or expired refresh token"), db)
  | some payload =>
    if getClaim payload "type" != some (Claim.s "refresh") then
      (Except.error (Err.unauthorized "Invalid token type"), db)
    else
      match pyTruthy (getStr payload "session_id"), pyTruthy (getStr payload "sub") with
      | some sid, some uid =>
        match get_active_session_by_id sid db with
        | none => (Except.error (Err.unauthorized "Session not found or inactive"), db)
        | some session =>
          if session.user_id != uid then
            (Except.error (Err.unauthorized "Session not found or inactive"), db)
          else if session.refresh_token_hash != hash_token raw then
            (Except.error (Err.unauthorized
              "Refresh token does not match — possible reuse detected"), db)
          else
            match load_user_full uid db with
            | none => (Except.error (Err.unauthorized "User not found"), db)
            | some user =>
              if user.status == UserStatus.DISABLED then
                (Except.error (Err.forbidden "Account is disabled"),
                 deactivate_session session.id db)
              else
                let role_names := (userRoles db user).map (fun r => r.name)
                let new_access := create_access_token
                  (build_access_payload db user session.id session.device_id) now none
                let new_refresh := create_refresh_token
                  [("sub", Claim.s user.id), ("session_id", Claim.s session.id),
                   ("device_id", Claim.s session.device_id)] now refreshTtl
                let db2 := { db with sessions := db.sessions.map (fun t2 =>
                    if t2.id == session.id then
                      { t2 with refresh_token_hash := hash_token new_refresh,
                                last_seen_at := now }
                    else t2) }
                (Except.ok { access_token := new_access, refresh_token := new_refresh,
                             token_type := "bearer", user_id := user.id,
                             roles := role_names }, db2)
      | _, _ => (Except.error (Err.unauthorized "Invalid refresh token payload"), db)

/-- Models `auth_service.accept_invitation`: look the token up with status PENDING,
flip an expired invitation to EXPIRED and fail, otherwise find-or-create the
identity, set the password credential and ACTIVE status, attach the assigned
role, provision an operator profile when required, and mark the invitation
ACCEPTED.  `newUserId` stands for the `uuid.uuid4()` drawn for a new user. -/
def accept_invitation (token password full_name : String) (warehouse_id : Option String)
    (shift_start shift_end : Option Int) (now : Int) (newUserId : String) (db : DB) :
    Except Err User × DB :=
  match db.invitations.find? (fun i => i.token == token && i.status == InvitationStatus.PENDING) with
  | none => (Except.error (Err.badRequest "Invalid or expired invitation"), db)
  | some invite =>
    if invite.expires_at < now then
      (Except.error (Err.badRequest "Invitation has expired"),
       { db with invitations := db.invitations.map (fun i =>
           if i.id == invite.id then { i with status := InvitationStatus.EXPIRED } else i) })
    else
      let found := db.users.find? (fun u => u.email == invite.email)
      let user0 : User := match found with
        | none =>
          { id := newUserId, email := invite.email,
            password_hash := some (hash_password password), full_name := full_name,
            status := UserStatus.ACTIVE, role_ids := [] }
        | some u =>
          { u with password_hash := some (hash_password password),
                   full_name := full_name, status := UserStatus.ACTIVE }
      let db1 : DB := match found with
        | none => { db with users := db.users ++ [user0] }
        | some _ => { db with users := db.users.map (fun v =>
            if v.id == user0.id then user0 else v) }
      match db.roles.find? (fun r => r.name == invite.role_assigned) with
      | none => (Except.error (Err.internal "Assigned role does not exist"), db1)
      | some role =>
        let user1 := if user0.role_ids.contains role.id then user0
          else { user0 with role_ids := user0.role_ids ++ [role.id] }
        let db2 := { db1 with users := db1.users.map (fun v =>
            if v.id == user1.id then user1 else v) }
        if role.name == "OPERATOR" then
          match warehouse_id with
          | none => (Except.error (Err.badRequest "Warehouse ID is required for OPERATOR role"), db2)
          | some wid =>
            let prof : OperatorProfile :=
              { user_id := user1.id, warehouse_id := wid,
                shift_start := shift_start, shift_end := shift_end }
            let db3 := { db2 with operator_profiles := db2.operator_profiles ++ [prof] }
            (Except.ok user1,
             { db3 with invitations := db3.invitations.map (fun i =>
                 if i.id == invite.id then { i with status := InvitationStatus.ACCEPTED } else i) })
        else
          (Except.ok user1,
           { db2 with invitations := db2.invitations.map (fun i =>
               if i.id == invite.id then { i with status := InvitationStatus.ACCEPTED } else i) })

/-- Models `user_service.disable_user`: 404 on an unknown id, else set status
DISABLED and synchronously deactivate every active session of the user. -/
def disable_user (target_user_id : String) (db : DB) : Except Err User × DB :=
  match db.users.find? (fun u => u.id == target_user_id) with
  | none => (Except.error (Err.notFound "User not found"), db)
  | some user =>
    let user1 := { user with status := UserStatus.DISABLED }
    let db1 := { db with users := db.users.map (fun v =>
        if v.id == target_user_id then user1 else v) }
    (Except.ok user1, (deactivate_all_user_sessions target_user_id db1).2)

/-- Models `dependencies._collect_permission_codes`: flatten the user's current
roles into the granted permission codes (membership is what matters; the
Python `set` is modelled as the flattened list). -/
def collect_permission_codes (db : DB) (user : User) : List String :=
  ((userRoles db user).map (fun r => r.permissions)).flatten

/-- Models `dependencies.require_permission.__call__` given an already-validated
token payload: load the user fresh, reject DISABLED accounts, and require
every required code to be granted; the denial detail is deliberately
generic. -/
def require_permission_call (required_codes : List String) (token_payload : Payload)
    (db : DB) : Except Err User :=
  match pyTruthy (getStr token_payload "user_id") with
  | none => Except.error (Err.unauthorized "Invalid token payload")
  | some uid =>
    match db.users.find? (fun u => u.id == uid) with
    | none => Except.error (Err.unauthorized "User not found")
    | some user =>
      if user.status == UserStatus.DISABLED then
        Except.error (Err.forbidden "Account disabled")
      else
        let granted := collect_permission_codes db user
        if !(required_codes.all (fun c => granted.contains c)) then
          Except.error (Err.forbidden "Insufficient permissions")
        else
          Except.ok user

/-- Models `context_resolver.DataScope`. -/
structure DataScope where
  is_admin : Bool := false
  warehouse_id : Option String := none
  client_id : Option String := none
  user_id : Option String := none
  role_names : List String := []
  deriving DecidableEq, Repr

/-- Models `context_resolver.resolve_data_scope`: admin, then operator-class,
then client, then the self-only fallback, in that order. -/
def resolve_data_scope (db : DB) (user : User) : Except Err DataScope :=
  let role_names := (userRoles db user).map (fun r => r.name)
  let scope : DataScope := { user_id := some user.id, role_names := role_names }
  if role_names.contains "ADMIN" then
    Except.ok { scope with is_admin := true }
  else if role_names.contains "OPERATOR" || role_names.contains "INVENTORY_MANAGER" then
    match operatorProfileOf db user with
    | none => Except.error (Err.forbidden "Operator profile missing — contact admin")
    | some p => Except.ok { scope with warehouse_id := some p.warehouse_id }
  else if role_names.contains "CLIENT" then
    match clientOf db user with
    | none => Except.error (Err.forbidden "Client profile missing — contact admin")
    | some c => Except.ok { scope with client_id := some c.id }
  else
    Except.ok scope

/-- Modelled from the spec: the per-request unit of work provided by
`app.core.database.get_db`, whose module is not under `src/`.  Spec §5 says
each request executes as one unit of work and §4.5 that `accept` is one
atomic unit, so the wrapper commits the service's state on success and rolls
it back (restores the pre-request store) when the service raises. -/
def runRequest {α : Type} (f : DB → Except Err α × DB) (db : DB) : Except Err α × DB :=
  match f db with
  | (Except.ok a, db2) => (Except.ok a, db2)
  | (Except.error e, _) => (Except.error e, db)

/-! Concrete example data used by the witness theorems. -/

/-- Example role catalog entry: the operator role. -/
def exRoleOp : Role := { id := "r-op", name := "OPERATOR", permissions := ["inventory.view"] }

/-- Example role catalog entry: the client role (no permissions granted). -/
def exRoleClient : Role := { id := "r-client", name := "CLIENT", permissions := [] }

/-- Example enabled operator identity. -/
def exAlice : User :=
  { id := "u1", email := "a@x.com", password_hash := some (hash_password "p"),
    full_name := "Alice", status := UserStatus.ACTIVE, role_ids := ["r-op"] }

/-- Example disabled identity. -/
def exDave : User :=
  { id := "u2", email := "d@x.com", password_hash := some (hash_password "p"),
    full_name := "Dave", status := UserStatus.DISABLED, role_ids := [] }

/-- Example warehouse profile linked to `exAlice`. -/
def exProfile : OperatorProfile :=
  { user_id := "u1", warehouse_id := "w1", shift_start := none, shift_end := none }

/-- A superseded refresh token T1 for session `s1`, issued at time 0. -/
def exRefresh1 : Token :=
  create_refresh_token
    [("sub", Claim.s "u1"), ("session_id", Claim.s "s1"), ("device_id", Claim.s "d1")] 0 1000

/-- The current refresh token T2 for session `s1`, issued at time 50. -/
def exRefresh2 : Token :=
  create_refresh_token
    [("sub", Claim.s "u1"), ("session_id", Claim.s "s1"), ("device_id", Claim.s "d1")] 50 1000

/-- Example active session for `exAlice` on device `d1`, rotated to T2. -/
def exSession1 : UserSession :=
  { id := "s1", user_id := "u1", device_id := "d1", role := "OPERATOR",
    refresh_token_hash := hash_token exRefresh2, created_at := 0,
    last_seen_at := 100, is_active := true }

/-- Example store: Alice logged in on `d1`. -/
def exDb : DB :=
  { users := [exAlice], roles := [exRoleOp], sessions := [exSession1],
    invitations := [], operator_profiles := [exProfile], clients := [] }

/-- The current refresh token for the disabled user's session `s2`. -/
def exRefresh3 : Token :=
  create_refresh_token
    [("sub", Claim.s "u2"), ("session_id", Claim.s "s2"), ("device_id", Claim.s "d2")] 0 1000

/-- An active session still held by the disabled user `exDave`. -/
def exSession2 : UserSession :=
  { id := "s2", user_id := "u2", device_id := "d2", role := "UNKNOWN",
    refresh_token_hash := hash_token exRefresh3, created_at := 0,
    last_seen_at := 100, is_active := true }

/-- Example store: a disabled account that still holds an active session. -/
def exDb2 : DB :=
  { users := [exDave], roles := [], sessions := [exSession2],
    invitations := [], operator_profiles := [], clients := [] }

/-- A PENDING invitation whose expiry (50) is already in the past at time 100. -/
def exInviteExpired : Invitation :=
  { id := "i1", email := "b@x.com", invited_by := some "u1", role_assigned := "CLIENT",
    token := "tok1", expires_at := 50, status := InvitationStatus.PENDING }

/-- A PENDING invitation still valid at time 100. -/
def exInvitePending : Invitation :=
  { id := "i2", email := "c@x.com", invited_by := some "u1", role_assigned := "CLIENT",
    token := "tok2", expires_at := 1000, status := InvitationStatus.PENDING }

/-- Example store for the invitation flows. -/
def exDb3 : DB :=
  { users := [], roles := [exRoleClient], sessions := [],
    invitations := [exInviteExpired, exInvitePending], operator_profiles := [], clients := [] }

/-- An access token for Alice bound to session `s1` and device `d1`. -/
def exAccess : Token :=
  create_access_token (build_access_payload exDb exAlice "s1" "d1") 0 none

/-- The identity created by accepting `exInvitePending`. -/
def exCarol : User :=
  { id := "u9", email := "c@x.com", password_hash := some (hash_password "pw"),
    full_name := "Carol", status := UserStatus.ACTIVE, role_ids := ["r-client"] }

/-- The store after `exInvitePending` is successfully accepted. -/
def exDb3Accepted : DB :=
  { users := [exCarol], roles := [exRoleClient], sessions := [],
    invitations := [exInviteExpired, { exInvitePending with status := InvitationStatus.ACCEPTED }],
    operator_profiles := [], clients := [] }

/-! Helper lemmas about the claim-dict primitives. -/

theorem getClaim_setClaim_self (p : Payload) (k : String) (v : Claim) :
    getClaim (setClaim p k v) k = some v := by
  unfold getClaim setClaim
  rw [List.find?_append]
  have hnone : (p.filter (fun kv => kv.1 != k)).find? (fun kv => kv.1 == k) = none := by
    rw [List.find?_eq_none]
    intro kv hkv
    have := List.of_mem_filter hkv
    simp only [bne_iff_ne, ne_eq] at this
    simp [this]
  rw [hnone]
  simp

theorem getClaim_setClaim_ne (p : Payload) (k v : _) (k' : String) (h : k' ≠ k) :
    getClaim (setClaim p k v) k' = getClaim p k' := by
  unfold getClaim setClaim
  rw [List.find?_append]
  have hlast : ([(k, v)] : Payload).find? (fun kv => kv.1 == k') = none := by
    simp [List.find?_cons, Ne.symm h]
  rw [hlast]
  have hfilter : (p.filter (fun kv => kv.1 != k)).find? (fun kv => kv.1 == k')
      = p.find? (fun kv => kv.1 == k') := by
    induction p with
    | nil => rfl
    | cons a rest ih =>
      by_cases ha : a.1 = k
      · have hb : (k == k') = false := by simp [Ne.symm h]
        simp [List.filter_cons, ha, List.find?_cons, hb, ih]
      · by_cases hk' : a.1 = k'
        · simp [List.filter_cons, ha, List.find?_cons, hk', h]
        · simp [List.filter_cons, ha, List.find?_cons, hk', ih]
  rw [hfilter]
  cases p.find? (fun kv => kv.1 == k') <;> simp

/-! ## C9 — token claim fidelity -/

/-- C9: decoding a token produced by `create_access_token` under the same
secret and algorithm reproduces every embedded claim unchanged, the only
addition being the freshly computed `exp` set at issuance; verification is a
pure function of the token that checks signature (key and algorithm) and
expiry only, and returns exactly the embedded payload. -/
theorem token_claim_fidelity (data : Payload) (now now2 : Int) (delta : Option Int)
    (h : now2 ≤ now + access_ttl delta) :
    decode_access_token (create_access_token data now delta) now2 =
      Except.ok (create_access_token data now delta).payload ∧
    (∀ k, k ≠ "exp" →
      getClaim (create_access_token data now delta).payload k = getClaim data k) ∧
    getClaim (create_access_token data now delta).payload "exp" =
      some (Claim.n (now + access_ttl delta)) ∧
    (∀ t key alg n, (jwtDecode t key alg n).isSome = true ↔
      (t.key = key ∧ t.alg = alg ∧ expOk t.payload n = true)) ∧
    (∀ t key alg n p2, jwtDecode t key alg n = some p2 → p2 = t.payload) := by
  have hexp : getClaim (create_access_token data now delta).payload "exp" =
      some (Claim.n (now + access_ttl delta)) := by
    simp [create_access_token, getClaim_setClaim_self]
  refine ⟨?_, ?_, hexp, ?_, ?_⟩
  · have hok : expOk (setClaim data "exp" (Claim.n (now + access_ttl delta))) now2 = true := by
      unfold expOk
      rw [getClaim_setClaim_self]
      simpa using h
    simp [decode_access_token, jwtDecode, create_access_token, hok]
  · intro k hk
    simp [create_access_token, getClaim_setClaim_ne _ _ _ _ hk]
  · intro t key alg n
    unfold jwtDecode
    constructor
    · intro hsome
      by_cases hc : (t.key == key && t.alg == alg && expOk t.payload n) = true
      · simp only [Bool.and_eq_true, beq_iff_eq] at hc
        exact ⟨hc.1.1, hc.1.2, hc.2⟩
      · simp [hc] at hsome
    · intro ⟨h1, h2, h3⟩
      simp [h1, h2, h3]
  · intro t key alg n p2 hdec
    unfold jwtDecode at hdec
    by_cases hc : (t.key == key && t.alg == alg && expOk t.payload n) = true
    · rw [if_pos hc] at hdec
      exact (Option.some_inj.mp hdec).symm
    · rw [if_neg hc] at hdec
      exact absurd hdec (by simp)

/-- C9 witness: a concrete payload round-trips at a concrete time. -/
theorem token_claim_fidelity_witness :
    (10 : Int) ≤ 0 + ACCESS_TOKEN_EXPIRE_MINUTES * 60 ∧
    decode_access_token (create_access_token [("sub", Claim.s "u1")] 0 none) 10 =
      Except.ok (create_access_token [("sub", Claim.s "u1")] 0 none).payload :=
  ⟨by decide, (token_claim_fidelity [("sub", Claim.s "u1")] 0 10 none (by decide)).1⟩

/-! ## C5 — data-scope resolution priority -/

/-- C5: `resolve_data_scope` evaluates in strict priority order: an ADMIN
role yields the unrestricted admin scope regardless of other roles; otherwise
an operator-class role (OPERATOR or INVENTORY_MANAGER) requires a linked
warehouse profile (Forbidden when missing) and binds the scope to its
warehouse id; otherwise a CLIENT role requires a linked client record
(Forbidden when missing) and binds the scope to the client id; otherwise the
scope is self-only, bound to the identity's own id. -/
theorem scope_resolution_priority (db : DB) (u : User) :
    ((∃ r ∈ userRoles db u, r.name = "ADMIN") →
      resolve_data_scope db u = Except.ok
        { is_admin := true, warehouse_id := none, client_id := none,
          user_id := some u.id,
          role_names := (userRoles db u).map (fun r => r.name) }) ∧
    (¬(∃ r ∈ userRoles db u, r.name = "ADMIN") →
     (∃ r ∈ userRoles db u, r.name = "OPERATOR" ∨ r.name = "INVENTORY_MANAGER") →
      (operatorProfileOf db u = none →
        resolve_data_scope db u =
          Except.error (Err.forbidden "Operator profile missing — contact admin")) ∧
      (∀ p, operatorProfileOf db u = some p →
        resolve_data_scope db u = Except.ok
          { is_admin := false, warehouse_id := some p.warehouse_id, client_id := none,
            user_id := some u.id,
            role_names := (userRoles db u).map (fun r => r.name) })) ∧
    (¬(∃ r ∈ userRoles db u, r.name = "ADMIN") →
     ¬(∃ r ∈ userRoles db u, r.name = "OPERATOR" ∨ r.name = "INVENTORY_MANAGER") →
     (∃ r ∈ userRoles db u, r.name = "CLIENT") →
      (clientOf db u = none →
        resolve_data_scope db u =
          Except.error (Err.forbidden "Client profile missing — contact admin")) ∧
      (∀ c, clientOf db u = some c →
        resolve_data_scope db u = Except.ok
          { is_admin := false, warehouse_id := none, client_id := some c.id,
            user_id := some u.id,
            role_names := (userRoles db u).map (fun r => r.name) })) ∧
    (¬(∃ r ∈ userRoles db u, r.name = "ADMIN") →
     ¬(∃ r ∈ userRoles db u, r.name = "OPERATOR" ∨ r.name = "INVENTORY_MANAGER") →
     ¬(∃ r ∈ userRoles db u, r.name = "CLIENT") →
      resolve_data_scope db u = Except.ok
        { is_admin := false, warehouse_id := none, client_id := none,
          user_id := some u.id,
          role_names := (userRoles db u).map (fun r => r.name) }) := by
  have hsplit : ∀ h : ∃ r ∈ userRoles db u, r.name = "OPERATOR" ∨ r.name = "INVENTORY_MANAGER",
      (∃ r ∈ userRoles db u, r.name = "OPERATOR") ∨
      (∃ r ∈ userRoles db u, r.name = "INVENTORY_MANAGER") := by
    rintro ⟨r, hr, hcase | hcase⟩
    · exact Or.inl ⟨r, hr, hcase⟩
    · exact Or.inr ⟨r, hr, hcase⟩
  have hnsplit : ∀ h : ¬(∃ r ∈ userRoles db u, r.name = "OPERATOR" ∨ r.name = "INVENTORY_MANAGER"),
      ¬(∃ r ∈ userRoles db u, r.name = "OPERATOR") ∧
      ¬(∃ r ∈ userRoles db u, r.name = "INVENTORY_MANAGER") := by
    intro h
    constructor
    · rintro ⟨r, hr, hcase⟩
      exact h ⟨r, hr, Or.inl hcase⟩
    · rintro ⟨r, hr, hcase⟩
      exact h ⟨r, hr, Or.inr hcase⟩
  refine ⟨?_, ?_, ?_, ?_⟩
  · intro hadmin
    simp [resolve_data_scope, hadmin]
  · intro hadmin hop
    constructor
    · intro hprof
      rcases hsplit hop with h | h <;> simp [resolve_data_scope, hadmin, h, hprof]
    · intro p hprof
      rcases hsplit hop with h | h <;> simp [resolve_data_scope, hadmin, h, hprof]
  · intro hadmin hop hcl
    obtain ⟨h1, h2⟩ := hnsplit hop
    constructor
    · intro hclient
      simp [resolve_data_scope, hadmin, h1, h2, hcl, hclient]
    · intro c hclient
      simp [resolve_data_scope, hadmin, h1, h2, hcl, hclient]
  · intro hadmin hop hcl
    obtain ⟨h1, h2⟩ := hnsplit hop
    simp [resolve_data_scope, hadmin, h1, h2, hcl]

/-- C5 witness: a concrete operator-role identity with a linked warehouse
profile resolves to the warehouse-bound scope. -/
theorem scope_resolution_priority_witness :
    (let db : DB :=
      { users := [{ id := "u1", email := "a@x.com",
                    password_hash := some (hash_password "p"), full_name := "Alice",
                    status := UserStatus.ACTIVE, role_ids := ["r-op"] }],
        roles := [{ id := "r-op", name := "OPERATOR", permissions := ["inventory.view"] }],
        sessions := [], invitations := [],
        operator_profiles := [{ user_id := "u1", warehouse_id := "w1",
                                shift_start := none, shift_end := none }],
        clients := [] }
     let u : User := { id := "u1", email := "a@x.com",
                       password_hash := some (hash_password "p"), full_name := "Alice",
                       status := UserStatus.ACTIVE, role_ids := ["r-op"] }
     resolve_data_scope db u = Except.ok
       { is_admin := false, warehouse_id := some "w1", client_id := none,
         user_id := some "u1", role_names := ["OPERATOR"] }) := by
  have h := (scope_resolution_priority
    { users := [{ id := "u1", email := "a@x.com",
                  password_hash := some (hash_password "p"), full_name := "Alice",
                  status := UserStatus.ACTIVE, role_ids := ["r-op"] }],
      roles := [{ id := "r-op", name := "OPERATOR", permissions := ["inventory.view"] }],
      sessions := [], invitations := [],
      operator_profiles := [{ user_id := "u1", warehouse_id := "w1",
                              shift_start := none, shift_end := none }],
      clients := [] }
    { id := "u1", email := "a@x.com",
      password_hash := some (hash_password "p"), full_name := "Alice",
      status := UserStatus.ACTIVE, role_ids := ["r-op"] }).2.1
  exact (h (by decide) (by decide)).2
    { user_id := "u1", warehouse_id := "w1", shift_start := none, shift_end := none }
    (by decide)

/-! ## C4 — authorization check -/

/-- C4: given a token payload naming an existing identity, the permission
check fails with Forbidden exactly when the identity is DISABLED or some
required code is not granted; zero required codes pass for every enabled
identity; the granted codes are the union of the permissions over the
identity's current roles, recomputed from the store at each resolution; and
the denial carries only the generic detail, never the missing codes. -/
theorem authorize_forbidden_iff (required : List String) (pl : Payload) (db : DB)
    (uid : String) (u : User)
    (huid : pyTruthy (getStr pl "user_id") = some uid)
    (hu : db.users.find? (fun v => v.id == uid) = some u) :
    ((∃ d, require_permission_call required pl db = Except.error (Err.forbidden d)) ↔
      (u.status = UserStatus.DISABLED ∨
       ∃ c ∈ required, c ∉ collect_permission_codes db u)) ∧
    (u.status ≠ UserStatus.DISABLED →
      require_permission_call [] pl db = Except.ok u) ∧
    (∀ c, c ∈ collect_permission_codes db u ↔
      ∃ r ∈ userRoles db u, c ∈ r.permissions) ∧
    (u.status ≠ UserStatus.DISABLED →
      (∃ c ∈ required, c ∉ collect_permission_codes db u) →
      require_permission_call required pl db =
        Except.error (Err.forbidden "Insufficient permissions")) := by
  have hcall : require_permission_call required pl db =
      (if u.status == UserStatus.DISABLED then
        Except.error (Err.forbidden "Account disabled")
      else if !(required.all (fun c => (collect_permission_codes db u).contains c)) then
        Except.error (Err.forbidden "Insufficient permissions")
      else Except.ok u) := by
    unfold require_permission_call
    simp only [huid, hu]
  have hcall0 : require_permission_call [] pl db =
      (if u.status == UserStatus.DISABLED then
        Except.error (Err.forbidden "Account disabled")
      else Except.ok u) := by
    unfold require_permission_call
    simp only [huid, hu]
    simp
  refine ⟨?_, ?_, ?_, ?_⟩
  · by_cases hdis : u.status = UserStatus.DISABLED
    · simp [hcall, hdis]
    · by_cases hall : ∀ c ∈ required, c ∈ collect_permission_codes db u
      · have hres : require_permission_call required pl db = Except.ok u := by
          rw [hcall]
          rw [if_neg (by simp [hdis]), if_neg (by simp [List.all_eq_true, List.elem_iff]; exact hall)]
        simp only [hres]
        constructor
        · intro ⟨d, hd⟩
          exact absurd hd (by simp)
        · intro hcase
          rcases hcase with hcase | ⟨c, hc, hcnot⟩
          · exact absurd hcase hdis
          · exact absurd (hall c hc) hcnot
      · push_neg at hall
        have hres : require_permission_call required pl db =
            Except.error (Err.forbidden "Insufficient permissions") := by
          rw [hcall]
          rw [if_neg (by simp [hdis]), if_pos (by simp [List.all_eq_true, List.elem_iff]; exact hall)]
        simp only [hres]
        constructor
        · intro _
          exact Or.inr hall
        · intro _
          exact ⟨"Insufficient permissions", rfl⟩
  · intro hdis
    rw [hcall0, if_neg (by simp [hdis])]
  · intro c
    simp [collect_permission_codes, List.mem_flatten]
  · intro hdis hmiss
    rw [hcall]
    rw [if_neg (by simp [hdis]), if_pos (by simp [List.all_eq_true, List.elem_iff]; exact hmiss)]

/-- C4 witness: Alice exists and is enabled, and a required code outside her
granted set is denied with the generic Forbidden detail. -/
theorem authorize_forbidden_iff_witness :
    pyTruthy (getStr (build_access_payload exDb exAlice "s1" "d1") "user_id") = some "u1" ∧
    exDb.users.find? (fun v => v.id == "u1") = some exAlice ∧
    require_permission_call ["other.code"] (build_access_payload exDb exAlice "s1" "d1") exDb =
      Except.error (Err.forbidden "Insufficient permissions") :=
  ⟨by decide, by decide,
   (authorize_forbidden_iff ["other.code"] (build_access_payload exDb exAlice "s1" "d1")
      exDb "u1" exAlice (by decide) (by decide)).2.2.2 (by decide) (by decide)⟩

/-! ## C8 — lazy inactivity expiry at read time -/

/-- C8: `get_active_sessions` returns exactly the sessions currently flagged
active for the identity, and the read performed at the start of
`authenticate_user` flags every session idle beyond the inactivity window
inactive while excluding it from the returned `truly_active` list, leaving
all other sessions untouched — garbage collection happens at this read, not
in a background sweep. -/
theorem lazy_expiry_at_read (uid : String) (now timeoutSec : Int) (db : DB) :
    (∀ s : UserSession, s ∈ get_active_sessions uid db ↔
      (s ∈ db.sessions ∧ s.user_id = uid ∧ s.is_active = true)) ∧
    (∀ s : UserSession, s ∈ (fetch_and_gc_active_sessions uid now timeoutSec db).1 ↔
      (s ∈ db.sessions ∧ s.user_id = uid ∧ s.is_active = true ∧
       ¬(now - s.last_seen_at > timeoutSec))) ∧
    (∀ s ∈ db.sessions, s.user_id = uid → s.is_active = true →
      now - s.last_seen_at > timeoutSec →
      { s with is_active := false } ∈ (fetch_and_gc_active_sessions uid now timeoutSec db).2.sessions) ∧
    (∀ s ∈ db.sessions, ¬(s.user_id = uid ∧ s.is_active = true ∧ now - s.last_seen_at > timeoutSec) →
      s ∈ (fetch_and_gc_active_sessions uid now timeoutSec db).2.sessions) := by
  refine ⟨?_, ?_, ?_, ?_⟩
  · intro s
    simp [get_active_sessions, List.mem_filter]
  · intro s
    simp [fetch_and_gc_active_sessions, get_active_sessions, List.mem_filter]
    tauto
  · intro s hs huid hact hstale
    simp only [fetch_and_gc_active_sessions, List.mem_map]
    refine ⟨s, hs, ?_⟩
    rw [if_pos (by simp [huid, hact, hstale])]
  · intro s hs hnot
    simp only [fetch_and_gc_active_sessions, List.mem_map]
    refine ⟨s, hs, ?_⟩
    rw [if_neg (by simp only [Bool.and_eq_true, beq_iff_eq, decide_eq_true_eq]; tauto)]

/-- C8 witness: with a 10-second window at time 100, Alice's session (last
seen at 100) is returned, while its stale copy would be flagged; concretely,
a stale session of a second store is flipped inactive by the read. -/
theorem lazy_expiry_at_read_witness :
    (exSession1 ∈ (fetch_and_gc_active_sessions "u2" 2000 10 exDb2).1 ↔
      (exSession1 ∈ exDb2.sessions ∧ exSession1.user_id = "u2" ∧
       exSession1.is_active = true ∧ ¬((2000 : Int) - exSession1.last_seen_at > 10))) ∧
    { exSession2 with is_active := false } ∈
      (fetch_and_gc_active_sessions "u2" 2000 10 exDb2).2.sessions :=
  ⟨(lazy_expiry_at_read "u2" 2000 10 exDb2).2.1 exSession1,
   (lazy_expiry_at_read "u2" 2000 10 exDb2).2.2.1 exSession2 (by decide) (by decide)
     (by decide) (by decide)⟩

/-! ## C3 — disabling an identity synchronously deactivates its sessions -/

/-- C3: `disable_user` sets the identity's status to DISABLED and flips
`is_active` off on exactly its previously-active sessions (all other sessions
are preserved verbatim), with `deactivate_all_user_sessions` returning the
number of sessions affected; afterwards a previously valid access token for
that identity is rejected Unauthorized at session validation, despite its
intact signature. -/
theorem disable_user_deactivates_sessions (db : DB) (uid : String) (u : User)
    (hu : db.users.find? (fun v => v.id == uid) = some u) :
    (disable_user uid db).1 = Except.ok { u with status := UserStatus.DISABLED } ∧
    (∀ v ∈ (disable_user uid db).2.users, v.id = uid → v.status = UserStatus.DISABLED) ∧
    (∀ s ∈ (disable_user uid db).2.sessions, s.user_id = uid → s.is_active = false) ∧
    (∀ s ∈ db.sessions, s.user_id ≠ uid → s ∈ (disable_user uid db).2.sessions) ∧
    (∀ s ∈ db.sessions, s.user_id = uid → s.is_active = false →
      s ∈ (disable_user uid db).2.sessions) ∧
    (∀ d : DB, (deactivate_all_user_sessions uid d).1 =
      (d.sessions.filter (fun s => s.user_id == uid && s.is_active)).length) ∧
    (∀ (t : Token) (now timeoutMin : Int) (pl : Payload),
      (get_current_user_token t now timeoutMin db).1 = Except.ok pl →
      pyTruthy (pyOr (getStr pl "sub") (getStr pl "user_id")) = some uid →
      (get_current_user_token t now timeoutMin (disable_user uid db).2).1 =
        Except.error (Err.unauthorized "Session expired or revoked")) := by
  have hstep : disable_user uid db =
      (Except.ok { u with status := UserStatus.DISABLED },
       { db with
         users := db.users.map (fun v =>
           if v.id == uid then { u with status := UserStatus.DISABLED } else v),
         sessions := db.sessions.map (fun s =>
           if s.user_id == uid && s.is_active then { s with is_active := false } else s) }) := by
    unfold disable_user deactivate_all_user_sessions
    rw [hu]
  have hinactive : ∀ s ∈ (disable_user uid db).2.sessions,
      s.user_id = uid → s.is_active = false := by
    intro s hs huid2
    rw [hstep] at hs
    simp only [List.mem_map] at hs
    obtain ⟨s0, _, hs0⟩ := hs
    by_cases hc : (s0.user_id == uid && s0.is_active) = true
    · rw [if_pos hc] at hs0
      rw [← hs0]
    · rw [if_neg hc] at hs0
      simp only [Bool.and_eq_true, beq_iff_eq, not_and] at hc
      rw [← hs0] at huid2 ⊢
      exact Bool.not_eq_true s0.is_active ▸ (by
        by_contra hact
        exact (hc huid2) (Bool.not_eq_false s0.is_active ▸ hact))
  refine ⟨by rw [hstep], ?_, hinactive, ?_, ?_, ?_, ?_⟩
  · intro v hv hid
    rw [hstep] at hv
    simp only [List.mem_map] at hv
    obtain ⟨v0, _, hv0⟩ := hv
    by_cases hc : v0.id = uid
    · rw [if_pos (by simp [hc])] at hv0
      rw [← hv0]
    · rw [if_neg (by simp [hc])] at hv0
      rw [← hv0] at hid
      exact absurd hid hc
  · intro s hs hne
    rw [hstep]
    simp only [List.mem_map]
    refine ⟨s, hs, ?_⟩
    rw [if_neg (by simp [hne])]
  · intro s hs _ hinact
    rw [hstep]
    simp only [List.mem_map]
    refine ⟨s, hs, ?_⟩
    rw [if_neg (by simp [hinact])]
  · intro d
    rfl
  · intro t now timeoutMin pl hok hpl
    unfold get_current_user_token at hok ⊢
    split at hok
    · simp at hok
    · rename_i payload hdec
      split at hok
      · rename_i sid uid0 did hsid huid0 hdid
        split at hok
        · simp at hok
        · rename_i session hfind
          split at hok
          · simp at hok
          · split at hok
            · simp at hok
            · have hplpayload : payload = pl := by simpa using hok
              have huideq : uid0 = uid := by
                have h2 := huid0
                rw [hplpayload] at h2
                rw [h2] at hpl
                exact Option.some.inj hpl
              subst huideq
              have hnone : (disable_user uid0 db).2.sessions.find?
                  (fun s => s.id == sid && s.user_id == uid0 && s.is_active) = none := by
                rw [List.find?_eq_none]
                intro s hs hcon
                simp only [Bool.and_eq_true, beq_iff_eq] at hcon
                have h2 : s.user_id = uid0 := by tauto
                have h3 : s.is_active = true := by tauto
                have h4 := hinactive s hs h2
                rw [h3] at h4
                exact Bool.noConfusion h4
              rw [hnone]
      · rename_i x1 x2 x3 hmiss
        simp at hok

/-- C3 witness: disabling Alice flips her session off and her previously
valid access token is now rejected as revoked. -/
theorem disable_user_deactivates_sessions_witness :
    exDb.users.find? (fun v => v.id == "u1") = some exAlice ∧
    (get_current_user_token exAccess 100 30 exDb).1 =
      Except.ok (build_access_payload exDb exAlice "s1" "d1" ++
        [("exp", Claim.n (0 + access_ttl none))]) ∧
    (get_current_user_token exAccess 100 30 (disable_user "u1" exDb).2).1 =
      Except.error (Err.unauthorized "Session expired or revoked") := by
  refine ⟨by decide, by decide, ?_⟩
  exact (disable_user_deactivates_sessions exDb "u1" exAlice (by decide)).2.2.2.2.2.2
    exAccess 100 30 (build_access_payload exDb exAlice "s1" "d1" ++
      [("exp", Claim.n (0 + access_ttl none))]) (by decide) (by decide)

/-! ## C1 — refresh replay detection and rotation -/

/-- C1: once a session's stored hash has been rotated to T2, presenting the
superseded T1 — whose signature is valid and whose expiry has not passed —
fails Unauthorized with the reuse detail, leaving the store untouched
(the submitted token's hash is compared against the stored hash before any
rotation); presenting the current T2 succeeds, replaces the stored hash by
the hash of the newly issued refresh token, and bumps `last_seen_at`. -/
theorem refresh_replay_detected (t1 t2 : Token) (now refreshTtl : Int) (db : DB)
    (pl1 : Payload) (sid uid : String) (s : UserSession)
    (h1dec : jwtDecode t1 SECRET_KEY JWT_ALGORITHM now = some pl1)
    (h1type : getClaim pl1 "type" = some (Claim.s "refresh"))
    (h1sid : pyTruthy (getStr pl1 "session_id") = some sid)
    (h1sub : pyTruthy (getStr pl1 "sub") = some uid)
    (hsess : get_active_session_by_id sid db = some s)
    (hown : s.user_id = uid)
    (hrot : s.refresh_token_hash = hash_token t2)
    (hne : t1 ≠ t2) :
    refresh_access_token t1 now refreshTtl db =
      (Except.error (Err.unauthorized
        "Refresh token does not match — possible reuse detected"), db) ∧
    (∀ (pl2 : Payload) (u : User),
      jwtDecode t2 SECRET_KEY JWT_ALGORITHM now = some pl2 →
      getClaim pl2 "type" = some (Claim.s "refresh") →
      pyTruthy (getStr pl2 "session_id") = some sid →
      pyTruthy (getStr pl2 "sub") = some uid →
      load_user_full uid db = some u →
      u.status ≠ UserStatus.DISABLED →
      (refresh_access_token t2 now refreshTtl db).1 =
        Except.ok
          { access_token :=
              create_access_token (build_access_payload db u s.id s.device_id) now none,
            refresh_token := create_refresh_token
              [("sub", Claim.s u.id), ("session_id", Claim.s s.id),
               ("device_id", Claim.s s.device_id)] now refreshTtl,
            token_type := "bearer", user_id := u.id,
            roles := (userRoles db u).map (fun r => r.name) } ∧
      (∀ s2 ∈ (refresh_access_token t2 now refreshTtl db).2.sessions, s2.id = s.id →
        s2.refresh_token_hash = hash_token (create_refresh_token
          [("sub", Claim.s u.id), ("session_id", Claim.s s.id),
           ("device_id", Claim.s s.device_id)] now refreshTtl) ∧
        s2.last_seen_at = now)) := by
  constructor
  · unfold refresh_access_token
    rw [h1dec]
    simp only [h1type, h1sid, h1sub, hsess]
    rw [if_neg (by simp), if_neg (by simp [hown]),
        if_pos (by rw [hrot]; simp [hash_token]; exact fun hh => hne hh.symm)]
  · intro pl2 u h2dec h2type h2sid h2sub huser hen
    have hstep : refresh_access_token t2 now refreshTtl db =
        (Except.ok
          { access_token :=
              create_access_token (build_access_payload db u s.id s.device_id) now none,
            refresh_token := create_refresh_token
              [("sub", Claim.s u.id), ("session_id", Claim.s s.id),
               ("device_id", Claim.s s.device_id)] now refreshTtl,
            token_type := "bearer", user_id := u.id,
            roles := (userRoles db u).map (fun r => r.name) },
         { db with sessions := db.sessions.map (fun t3 =>
             if t3.id == s.id then
               { t3 with
                 refresh_token_hash := hash_token (create_refresh_token [("sub", Claim.s u.id), ("session_id", Claim.s s.id), ("device_id", Claim.s s.device_id)] now refreshTtl),
                 last_seen_at := now }
             else t3) }) := by
      unfold refresh_access_token
      rw [h2dec]
      simp only [h2type, h2sid, h2sub, hsess, huser]
      rw [if_neg (by simp), if_neg (by simp [hown]),
          if_neg (by rw [hrot]; simp [hash_token]),
          if_neg (by simp [hen])]
    refine ⟨by rw [hstep], ?_⟩
    intro s2 hs2 hid
    rw [hstep] at hs2
    simp only [List.mem_map] at hs2
    obtain ⟨s3, _, hs3⟩ := hs2
    by_cases hc : s3.id = s.id
    · rw [if_pos (by simp [hc])] at hs3
      rw [← hs3]
      exact ⟨rfl, rfl⟩
    · rw [if_neg (by simp [hc])] at hs3
      rw [← hs3] at hid
      exact absurd hid hc

/-- C1 witness: replaying the superseded T1 against Alice's session fails
with the reuse detail and leaves the store unchanged, while the current T2
is accepted. -/
theorem refresh_replay_detected_witness :
    refresh_access_token exRefresh1 100 1000 exDb =
      (Except.error (Err.unauthorized
        "Refresh token does not match — possible reuse detected"), exDb) ∧
    (refresh_access_token exRefresh2 100 1000 exDb).1 =
      Except.ok
        { access_token :=
            create_access_token (build_access_payload exDb exAlice "s1" "d1") 100 none,
          refresh_token := create_refresh_token
            [("sub", Claim.s "u1"), ("session_id", Claim.s "s1"),
             ("device_id", Claim.s "d1")] 100 1000,
          token_type := "bearer", user_id := "u1", roles := ["OPERATOR"] } := by
  have h := refresh_replay_detected exRefresh1 exRefresh2 100 1000 exDb
    exRefresh1.payload "s1" "u1" exSession1
    (by decide) (by decide) (by decide) (by decide) (by decide) (by decide)
    (by decide) (by decide)
  refine ⟨h.1, ?_⟩
  have h2 := (h.2 exRefresh2.payload exAlice
    (by decide) (by decide) (by decide) (by decide) (by decide) (by decide)).1
  rw [h2]
  decide

/-! ## C2 — device-bound login -/

/-- C2: with valid credentials for an enabled identity, after stale sessions
are garbage-collected: a surviving active session on a different device makes
the login fail Conflict; otherwise a surviving session on the same device is
reused — the issued access token carries that session's id and its stored
refresh-token hash is overwritten (and `last_seen_at` bumped); otherwise a
new session row is created and appended. -/
theorem device_bound_login (email password device_id newSid : String)
    (now timeoutMin refreshTtl : Int) (db : DB) (u : User)
    (hu : db.users.find? (fun v => v.email == email) = some u)
    (hpw : verify_password password (u.password_hash.getD "") = true)
    (hen : u.status ≠ UserStatus.DISABLED) :
    ((∃ s ∈ (fetch_and_gc_active_sessions u.id now (timeoutMin * 60) db).1,
        s.device_id ≠ device_id) →
      authenticate_user email password device_id now timeoutMin refreshTtl newSid db =
        (Except.error (Err.conflict
          "Active session exists on another device. Only one device is allowed per user."),
         (fetch_and_gc_active_sessions u.id now (timeoutMin * 60) db).2)) ∧
    (∀ s : UserSession,
      (∀ s2 ∈ (fetch_and_gc_active_sessions u.id now (timeoutMin * 60) db).1,
        s2.device_id = device_id) →
      (fetch_and_gc_active_sessions u.id now (timeoutMin * 60) db).1.find?
        (fun s2 => s2.device_id == device_id) = some s →
      authenticate_user email password device_id now timeoutMin refreshTtl newSid db =
        (Except.ok
          { access_token :=
              create_access_token (build_access_payload db u s.id device_id) now none,
            refresh_token := create_refresh_token
              [("sub", Claim.s u.id), ("session_id", Claim.s s.id),
               ("device_id", Claim.s device_id)] now refreshTtl,
            token_type := "bearer", user_id := u.id,
            roles := (userRoles db u).map (fun r => r.name) },
         { (fetch_and_gc_active_sessions u.id now (timeoutMin * 60) db).2 with
           sessions := (fetch_and_gc_active_sessions u.id now (timeoutMin * 60) db).2.sessions.map (fun t3 =>
             if t3.id == s.id then
               { t3 with
                 refresh_token_hash := hash_token (create_refresh_token [("sub", Claim.s u.id), ("session_id", Claim.s s.id), ("device_id", Claim.s device_id)] now refreshTtl),
                 last_seen_at := now }
             else t3) }) ∧
      getClaim (build_access_payload db u s.id device_id) "session_id" =
        some (Claim.s s.id)) ∧
    ((fetch_and_gc_active_sessions u.id now (timeoutMin * 60) db).1 = [] →
      authenticate_user email password device_id now timeoutMin refreshTtl newSid db =
        (Except.ok
          { access_token :=
              create_access_token (build_access_payload db u newSid device_id) now none,
            refresh_token := create_refresh_token
              [("sub", Claim.s u.id), ("session_id", Claim.s newSid),
               ("device_id", Claim.s device_id)] now refreshTtl,
            token_type := "bearer", user_id := u.id,
            roles := (userRoles db u).map (fun r => r.name) },
         { (fetch_and_gc_active_sessions u.id now (timeoutMin * 60) db).2 with
           sessions := (fetch_and_gc_active_sessions u.id now (timeoutMin * 60) db).2.sessions ++
             [{ id := newSid, user_id := u.id, device_id := device_id,
                role := ((userRoles db u).map (fun r => r.name)).headD "UNKNOWN",
                refresh_token_hash := hash_token (create_refresh_token [("sub", Claim.s u.id), ("session_id", Claim.s newSid), ("device_id", Claim.s device_id)] now refreshTtl),
                created_at := now, last_seen_at := now, is_active := true }] })) := by
  refine ⟨?_, ?_, ?_⟩
  · intro hconf
    have hany : ((fetch_and_gc_active_sessions u.id now (timeoutMin * 60) db).1.any
        (fun s => s.device_id != device_id)) = true := by
      rw [List.any_eq_true]
      obtain ⟨s, hs, hne2⟩ := hconf
      exact ⟨s, hs, by simp [hne2]⟩
    unfold authenticate_user
    simp [hu, hpw, hen, hany]
  · intro s hsame hfind
    have hany : ((fetch_and_gc_active_sessions u.id now (timeoutMin * 60) db).1.any
        (fun s2 => s2.device_id != device_id)) = false := by
      rw [Bool.eq_false_iff]
      intro hany
      rw [List.any_eq_true] at hany
      obtain ⟨s2, hs2, hne2⟩ := hany
      simp only [bne_iff_ne, ne_eq] at hne2
      exact hne2 (hsame s2 hs2)
    constructor
    · unfold authenticate_user
      simp [hu, hpw, hen, hany, hfind]
    · rfl
  · intro hempty
    unfold authenticate_user
    simp [hu, hpw, hen, hempty]

/-- C2 witness: with Alice's session active on `d1`, logging in from `d2`
conflicts while logging in again from `d1` reuses session `s1`. -/
theorem device_bound_login_witness :
    (authenticate_user "a@x.com" "p" "d2" 100 30 1000 "s-new" exDb).1 =
      Except.error (Err.conflict
        "Active session exists on another device. Only one device is allowed per user.") ∧
    (authenticate_user "a@x.com" "p" "d1" 100 30 1000 "s-new" exDb).1 =
      Except.ok
        { access_token :=
            create_access_token (build_access_payload exDb exAlice "s1" "d1") 100 none,
          refresh_token := create_refresh_token
            [("sub", Claim.s "u1"), ("session_id", Claim.s "s1"),
             ("device_id", Claim.s "d1")] 100 1000,
          token_type := "bearer", user_id := "u1", roles := ["OPERATOR"] } := by
  have ha := (device_bound_login "a@x.com" "p" "d2" "s-new" 100 30 1000 exDb exAlice
    (by decide) (by decide) (by decide)).1 (by decide)
  have hb := ((device_bound_login "a@x.com" "p" "d1" "s-new" 100 30 1000 exDb exAlice
    (by decide) (by decide) (by decide)).2.1 exSession1 (by decide) (by decide)).1
  constructor
  · rw [ha]
  · rw [hb]
    decide

/-! ## C6 — invitation acceptance is one atomic unit -/

theorem runRequest_error {α : Type} (f : DB → Except Err α × DB) (db : DB) (e : Err) (st : DB)
    (h : f db = (Except.error e, st)) : runRequest f db = (Except.error e, db) := by
  unfold runRequest
  rw [h]

theorem runRequest_ok {α : Type} (f : DB → Except Err α × DB) (db : DB) (a : α) (st : DB)
    (h : f db = (Except.ok a, st)) : runRequest f db = (Except.ok a, st) := by
  unfold runRequest
  rw [h]

theorem mem_map_update_self {l : List User} {w : User} (h : ∃ v ∈ l, v.id = w.id) :
    w ∈ l.map (fun v => if v.id == w.id then w else v) := by
  obtain ⟨v, hv, hid⟩ := h
  rw [List.mem_map]
  exact ⟨v, hv, by rw [if_pos (by simp [hid])]⟩

theorem map_status_update {l : List Invitation} {iid : String} {st2 : InvitationStatus} :
    ∀ i ∈ l.map (fun i => if i.id == iid then { i with status := st2 } else i),
      i.id = iid → i.status = st2 := by
  intro i hi hid
  rw [List.mem_map] at hi
  obtain ⟨j, _, hj⟩ := hi
  by_cases hc : j.id = iid
  · rw [if_pos (by simp [hc])] at hj
    rw [← hj]
  · rw [if_neg (by simp [hc])] at hj
    rw [← hj] at hid
    exact absurd hid hc

/-- C6: under the unit-of-work wrapper, a failing `accept_invitation` leaves
the store exactly as it was — none of its intermediate effects is observable;
and when the call succeeds (the token names an unexpired PENDING invitation
whose assigned role exists in the catalog), all effects are applied together:
the returned identity is ACTIVE with the new password credential set, it is
in the store, the assigned role is attached, the invitation is marked
ACCEPTED, and an operator role comes with a provisioned warehouse profile. -/
theorem invitation_accept_atomic (tok pw fn : String) (wid : Option String)
    (ss se : Option Int) (now : Int) (nid : String) (db : DB) (inv : Invitation) (role : Role)
    (hinv : db.invitations.find?
      (fun i => i.token == tok && i.status == InvitationStatus.PENDING) = some inv)
    (hnotexp : ¬ inv.expires_at < now)
    (hrole : db.roles.find? (fun r => r.name == inv.role_assigned) = some role) :
    (∀ (tok2 pw2 fn2 : String) (wid2 : Option String) (ss2 se2 : Option Int)
       (now2 : Int) (nid2 : String) (db2 : DB) (e : Err) (st : DB),
      accept_invitation tok2 pw2 fn2 wid2 ss2 se2 now2 nid2 db2 = (Except.error e, st) →
      runRequest (accept_invitation tok2 pw2 fn2 wid2 ss2 se2 now2 nid2) db2 =
        (Except.error e, db2)) ∧
    (∀ (u : User) (st : DB),
      accept_invitation tok pw fn wid ss se now nid db = (Except.ok u, st) →
      runRequest (accept_invitation tok pw fn wid ss se now nid) db = (Except.ok u, st) ∧
      u.status = UserStatus.ACTIVE ∧
      u.password_hash = some (hash_password pw) ∧
      u.full_name = fn ∧
      u ∈ st.users ∧
      role.id ∈ u.role_ids ∧
      (∀ i ∈ st.invitations, i.id = inv.id → i.status = InvitationStatus.ACCEPTED) ∧
      (role.name = "OPERATOR" → ∃ w, wid = some w ∧
        ({ user_id := u.id, warehouse_id := w, shift_start := ss, shift_end := se } :
          OperatorProfile) ∈ st.operator_profiles)) := by
  constructor
  · intro tok2 pw2 fn2 wid2 ss2 se2 now2 nid2 db2 e st h
    exact runRequest_error _ _ _ _ h
  · intro u st h
    have horig := h
    unfold accept_invitation at h
    cases hfound : db.users.find? (fun v => v.email == inv.email) with
    | none =>
      by_cases hop : role.name = "OPERATOR"
      · cases hwid : wid with
        | none =>
          simp [hinv, hnotexp, hrole, hfound, hop, hwid] at h
        | some w =>
          simp [hinv, hnotexp, hrole, hfound, hop, hwid] at h
          rw [hwid] at horig
          obtain ⟨hu, hst⟩ := h
          subst hu
          subst hst
          refine ⟨runRequest_ok _ _ _ _ horig, rfl, rfl, rfl, ?_, by simp, ?_, ?_⟩
          · simp
          · intro i hi hid
            simp only [List.mem_map] at hi
            obtain ⟨j, _, hj⟩ := hi
            by_cases hc : j.id = inv.id
            · rw [if_pos hc] at hj
              rw [← hj]
            · rw [if_neg hc] at hj
              rw [← hj] at hid
              exact absurd hid hc
          · intro _
            exact ⟨w, rfl, by simp⟩
      · simp [hinv, hnotexp, hrole, hfound, hop] at h
        obtain ⟨hu, hst⟩ := h
        subst hu
        subst hst
        refine ⟨runRequest_ok _ _ _ _ horig, rfl, rfl, rfl, ?_, by simp, ?_, ?_⟩
        · simp
        · intro i hi hid
          simp only [List.mem_map] at hi
          obtain ⟨j, _, hj⟩ := hi
          by_cases hc : j.id = inv.id
          · rw [if_pos hc] at hj
            rw [← hj]
          · rw [if_neg hc] at hj
            rw [← hj] at hid
            exact absurd hid hc
        · intro hc
          exact absurd hc hop
    | some u0 =>
      by_cases hcont : role.id ∈ u0.role_ids
      · by_cases hop : role.name = "OPERATOR"
        · cases hwid : wid with
          | none =>
            simp [hinv, hnotexp, hrole, hfound, hcont, hop, hwid] at h
          | some w =>
            simp [hinv, hnotexp, hrole, hfound, hcont, hop, hwid] at h
            rw [hwid] at horig
            obtain ⟨hu, hst⟩ := h
            subst hu
            subst hst
            refine ⟨runRequest_ok _ _ _ _ horig, rfl, rfl, rfl, ?_, ?_, ?_, ?_⟩
            · simp only [List.mem_map]
              exact ⟨u0, List.mem_of_find?_eq_some hfound, by simp⟩
            · simpa using hcont
            · intro i hi hid
              simp only [List.mem_map] at hi
              obtain ⟨j, _, hj⟩ := hi
              by_cases hc : j.id = inv.id
              · rw [if_pos hc] at hj
                rw [← hj]
              · rw [if_neg hc] at hj
                rw [← hj] at hid
                exact absurd hid hc
            · intro _
              exact ⟨w, rfl, by simp⟩
        · simp [hinv, hnotexp, hrole, hfound, hcont, hop] at h
          obtain ⟨hu, hst⟩ := h
          subst hu
          subst hst
          refine ⟨runRequest_ok _ _ _ _ horig, rfl, rfl, rfl, ?_, ?_, ?_, ?_⟩
          · simp only [List.mem_map]
            exact ⟨u0, List.mem_of_find?_eq_some hfound, by simp⟩
          · simpa using hcont
          · intro i hi hid
            simp only [List.mem_map] at hi
            obtain ⟨j, _, hj⟩ := hi
            by_cases hc : j.id = inv.id
            · rw [if_pos hc] at hj
              rw [← hj]
            · rw [if_neg hc] at hj
              rw [← hj] at hid
              exact absurd hid hc
          · intro hc
            exact absurd hc hop
      · by_cases hop : role.name = "OPERATOR"
        · cases hwid : wid with
          | none =>
            simp [hinv, hnotexp, hrole, hfound, hcont, hop, hwid] at h
          | some w =>
            simp [hinv, hnotexp, hrole, hfound, hcont, hop, hwid] at h
            rw [hwid] at horig
            obtain ⟨hu, hst⟩ := h
            subst hu
            subst hst
            refine ⟨runRequest_ok _ _ _ _ horig, rfl, rfl, rfl, ?_, by simp, ?_, ?_⟩
            · simp only [List.mem_map]
              exact ⟨u0, List.mem_of_find?_eq_some hfound, by simp⟩
            · intro i hi hid
              simp only [List.mem_map] at hi
              obtain ⟨j, _, hj⟩ := hi
              by_cases hc : j.id = inv.id
              · rw [if_pos hc] at hj
                rw [← hj]
              · rw [if_neg hc] at hj
                rw [← hj] at hid
                exact absurd hid hc
            · intro _
              exact ⟨w, rfl, by simp⟩
        · simp [hinv, hnotexp, hrole, hfound, hcont, hop] at h
          obtain ⟨hu, hst⟩ := h
          subst hu
          subst hst
          refine ⟨runRequest_ok _ _ _ _ horig, rfl, rfl, rfl, ?_, by simp, ?_, ?_⟩
          · simp only [List.mem_map]
            exact ⟨u0, List.mem_of_find?_eq_some hfound, by simp⟩
          · intro i hi hid
            simp only [List.mem_map] at hi
            obtain ⟨j, _, hj⟩ := hi
            by_cases hc : j.id = inv.id
            · rw [if_pos hc] at hj
              rw [← hj]
            · rw [if_neg hc] at hj
              rw [← hj] at hid
              exact absurd hid hc
          · intro hc
            exact absurd hc hop
/-- C6 witness: accepting the valid `tok2` commits the identity, role, and
ACCEPTED invitation together, while the failing `tok1` call leaves the store
exactly as it was. -/
theorem invitation_accept_atomic_witness :
    runRequest (accept_invitation "tok2" "pw" "Carol" none none none 100 "u9") exDb3 =
      (Except.ok exCarol, exDb3Accepted) ∧
    (∀ i ∈ exDb3Accepted.invitations, i.id = "i2" → i.status = InvitationStatus.ACCEPTED) ∧
    runRequest (accept_invitation "tok1" "pw" "Bob" none none none 100 "u9") exDb3 =
      (Except.error (Err.badRequest "Invitation has expired"), exDb3) := by
  have h := invitation_accept_atomic "tok2" "pw" "Carol" none none none 100 "u9"
    exDb3 exInvitePending exRoleClient (by decide) (by decide) (by decide)
  refine ⟨?_, ?_, ?_⟩
  · exact (h.2 exCarol exDb3Accepted (by decide)).1
  · intro i hi hid
    exact (h.2 exCarol exDb3Accepted (by decide)).2.2.2.2.2.2.1 i hi hid
  · exact h.1 "tok1" "pw" "Bob" none none none 100 "u9" exDb3
      (Err.badRequest "Invitation has expired")
      (accept_invitation "tok1" "pw" "Bob" none none none 100 "u9" exDb3).2 (by decide)

/-! ## C7 — an expired invitation fails BadRequest; the EXPIRED flip is
rolled back with the raise, so the token is retried as PENDING -/

/-- Counterexample to C7 as stated: at the concrete expired invitation
`tok1`, the request fails BadRequest but the post-request store still holds
the invitation with status PENDING — the EXPIRED flip was rolled back with
the raise — and a later request with the same token is processed as PENDING
again, failing the expiry re-check (detail "Invitation has expired", not the
PENDING-lookup rejection), so the token is retried as PENDING. -/
theorem expired_invitation_pending_after_failure :
    (runRequest (accept_invitation "tok1" "pw" "Bob" none none none 100 "u9") exDb3).1 =
      Except.error (Err.badRequest "Invitation has expired") ∧
    exInviteExpired ∈
      (runRequest (accept_invitation "tok1" "pw" "Bob" none none none 100 "u9") exDb3).2.invitations ∧
    exInviteExpired.status = InvitationStatus.PENDING ∧
    (runRequest (accept_invitation "tok1" "pw" "Bob" none none none 200 "u10")
      (runRequest (accept_invitation "tok1" "pw" "Bob" none none none 100 "u9") exDb3).2).1 =
      Except.error (Err.badRequest "Invitation has expired") := by
  decide

/-- C7 (amended): for every PENDING invitation whose expiry lies in the
past, accepting its token fails BadRequest; the service flips the status to
EXPIRED in its unit-of-work state before raising, but the rollback-on-raise
unit of work does not commit the flip, so the durable store is unchanged and
the invitation remains PENDING; every subsequent accept with the same token
past the expiry also fails BadRequest — it is processed as PENDING again and
fails the expiry re-check. -/
theorem expired_invitation_request_retry (tok pw fn : String) (wid : Option String)
    (ss se : Option Int) (now : Int) (nid : String) (db : DB) (inv : Invitation)
    (hfind : db.invitations.find?
      (fun i => i.token == tok && i.status == InvitationStatus.PENDING) = some inv)
    (hexp : inv.expires_at < now) :
    runRequest (accept_invitation tok pw fn wid ss se now nid) db =
      (Except.error (Err.badRequest "Invitation has expired"), db) ∧
    (∀ i ∈ (accept_invitation tok pw fn wid ss se now nid db).2.invitations,
      i.id = inv.id → i.status = InvitationStatus.EXPIRED) ∧
    (∀ (pw2 fn2 : String) (wid2 : Option String) (ss2 se2 : Option Int)
       (now2 : Int) (nid2 : String), inv.expires_at < now2 →
      runRequest (accept_invitation tok pw2 fn2 wid2 ss2 se2 now2 nid2) db =
        (Except.error (Err.badRequest "Invitation has expired"), db)) := by
  have hstep : ∀ (pw' fn' : String) (wid' : Option String) (ss' se' : Option Int)
      (now' : Int) (nid' : String), inv.expires_at < now' →
      accept_invitation tok pw' fn' wid' ss' se' now' nid' db =
        (Except.error (Err.badRequest "Invitation has expired"),
         { db with invitations := db.invitations.map (fun i =>
             if i.id == inv.id then { i with status := InvitationStatus.EXPIRED } else i) }) := by
    intro pw' fn' wid' ss' se' now' nid' hexp'
    unfold accept_invitation
    simp only [hfind]
    rw [if_pos hexp']
  refine ⟨runRequest_error _ _ _ _ (hstep pw fn wid ss se now nid hexp), ?_, ?_⟩
  · intro i hi hid
    rw [hstep pw fn wid ss se now nid hexp] at hi
    simp only [List.mem_map] at hi
    obtain ⟨j, _, hj⟩ := hi
    by_cases hc : j.id = inv.id
    · rw [if_pos (by simp [hc])] at hj
      rw [← hj]
    · rw [if_neg (by simp [hc])] at hj
      rw [← hj] at hid
      exact absurd hid hc
  · intro pw2 fn2 wid2 ss2 se2 now2 nid2 hexp2
    exact runRequest_error _ _ _ _ (hstep pw2 fn2 wid2 ss2 se2 now2 nid2 hexp2)

/-- C7 (amended) witness: the concrete expired invitation `tok1` fails
BadRequest with the store restored; the flip is visible only in the
unit-of-work state the service produced. -/
theorem expired_invitation_request_retry_witness :
    exDb3.invitations.find?
      (fun i => i.token == "tok1" && i.status == InvitationStatus.PENDING) = some exInviteExpired ∧
    exInviteExpired.expires_at < (100 : Int) ∧
    runRequest (accept_invitation "tok1" "pw" "Bob" none none none 100 "u9") exDb3 =
      (Except.error (Err.badRequest "Invitation has expired"), exDb3) ∧
    runRequest (accept_invitation "tok1" "pw" "Bob" none none none 200 "u10") exDb3 =
      (Except.error (Err.badRequest "Invitation has expired"), exDb3) := by
  have h := expired_invitation_request_retry "tok1" "pw" "Bob" none none none 100 "u9"
    exDb3 exInviteExpired (by decide) (by decide)
  exact ⟨by decide, by decide, h.1, h.2.2 "pw" "Bob" none none none 200 "u10" (by decide)⟩

/-! ## C10 — refresh for a disabled account deactivates the session only in
the unit-of-work state; the rollback restores it -/

/-- Counterexample to C10 as stated: at the concrete disabled account, the
refresh request is rejected Forbidden, yet the matched session `s2` is still
present and active in the post-request store — the `deactivate_session`
write was rolled back with the raise, so the session does remain active
after the rejected refresh. -/
theorem refresh_disabled_session_still_active :
    (runRequest (refresh_access_token exRefresh3 100 1000) exDb2).1 =
      Except.error (Err.forbidden "Account is disabled") ∧
    exSession2 ∈ (runRequest (refresh_access_token exRefresh3 100 1000) exDb2).2.sessions ∧
    exSession2.is_active = true := by
  decide

/-- C10 (amended): when the submitted refresh token is cryptographically
valid, names an active session it matches by stored hash, but the owning
account is DISABLED, `refresh_access_token` executes `deactivate_session`
before raising Forbidden — in the unit-of-work state it produces no session
with that id is active; the rollback-on-raise unit of work does not commit
that write, so after the rejected request the durable store is unchanged and
the matched session is still present and active. -/
theorem refresh_disabled_rolled_back (raw : Token) (now refreshTtl : Int) (db : DB)
    (pl : Payload) (sid uid : String) (s : UserSession) (u : User)
    (hdec : jwtDecode raw SECRET_KEY JWT_ALGORITHM now = some pl)
    (htype : getClaim pl "type" = some (Claim.s "refresh"))
    (hsid : pyTruthy (getStr pl "session_id") = some sid)
    (hsub : pyTruthy (getStr pl "sub") = some uid)
    (hsess : get_active_session_by_id sid db = some s)
    (hown : s.user_id = uid)
    (hhash : s.refresh_token_hash = hash_token raw)
    (huser : load_user_full uid db = some u)
    (hdis : u.status = UserStatus.DISABLED) :
    refresh_access_token raw now refreshTtl db =
      (Except.error (Err.forbidden "Account is disabled"), deactivate_session s.id db) ∧
    (∀ s2 ∈ (deactivate_session s.id db).sessions, s2.id = s.id → s2.is_active = false) ∧
    runRequest (refresh_access_token raw now refreshTtl) db =
      (Except.error (Err.forbidden "Account is disabled"), db) ∧
    s ∈ db.sessions ∧ s.is_active = true := by
  have hstep : refresh_access_token raw now refreshTtl db =
      (Except.error (Err.forbidden "Account is disabled"), deactivate_session s.id db) := by
    unfold refresh_access_token
    rw [hdec]
    simp only [htype, hsid, hsub, hsess, huser]
    rw [if_neg (by simp), if_neg (by simp [hown]), if_neg (by simp [hhash]),
        if_pos (by simp [hdis])]
  have hsess2 : db.sessions.find? (fun s2 => s2.id == sid && s2.is_active) = some s := hsess
  have hprop := List.find?_some hsess2
  simp only [Bool.and_eq_true, beq_iff_eq] at hprop
  refine ⟨hstep, ?_, runRequest_error _ _ _ _ hstep,
    List.mem_of_find?_eq_some hsess2, hprop.2⟩
  intro s2 hs2 hid
  simp only [deactivate_session, List.mem_map] at hs2
  obtain ⟨s3, _, hs3⟩ := hs2
  by_cases hc : s3.id = s.id
  · rw [if_pos (by simp [hc])] at hs3
    rw [← hs3]
  · rw [if_neg (by simp [hc])] at hs3
    rw [← hs3] at hid
    exact absurd hid hc

/-- C10 (amended) witness: the disabled user's session `s2` is inactive in
the unit-of-work state the service produced, while the rejected request
leaves the durable store unchanged with `s2` still active. -/
theorem refresh_disabled_rolled_back_witness :
    refresh_access_token exRefresh3 100 1000 exDb2 =
      (Except.error (Err.forbidden "Account is disabled"), deactivate_session "s2" exDb2) ∧
    runRequest (refresh_access_token exRefresh3 100 1000) exDb2 =
      (Except.error (Err.forbidden "Account is disabled"), exDb2) := by
  have h := refresh_disabled_rolled_back exRefresh3 100 1000 exDb2
    exRefresh3.payload "s2" "u2" exSession2 exDave
    (by decide) (by decide) (by decide) (by decide) (by decide) (by decide)
    (by decide) (by decide) (by decide)
  exact ⟨h.1, h.2.2.1⟩

end CmsBackend
